import Mathlib

/-!
GophKeeper: authentication gate, login and read-secret handlers, PostgreSQL storage.

A shallow embedding of

* `internal/app/HTTP/middlewares/auth_mw.go`      (`GetAuthMW`)
* `internal/app/HTTP/httphandlers/login.go`       (`LogIn`)
* `internal/app/HTTP/httphandlers/login_and_password_GET.go` (`PasswordGet`)
* `internal/app/HTTP/httphandlers/text_data_GET.go` (`TextDataGet`)
* `pkg/storages/PostgreSQL/postgresql.go`         (`PostgresDB`)

Conventions of the embedding.

* A Go function returning `(v, err)` becomes a Lean function returning a pair
  whose last component is `Option GoError` (`none` is Go's `nil`).  The value
  that accompanies an error is kept, as in Go.
* Go `string` and `[]byte` are both byte sequences; the conversions
  `[]byte(s)` and `string(b)` copy the content unchanged.  Both are modelled by
  `String`, the conversions by the identity.
* Go `int` is modelled by `Int`; the handlers only compare and print it.
* Handlers are state transformers on a `World`: the `http.ResponseWriter`
  together with the trace of calls made on collaborators (the wrapped handler,
  the JWT helper, the hasher, the user manager, the storage, the key keeper and
  the encryptor).  Logger calls have no effect on either and are left out.
* A database table is the list of its rows; `QueryRowContext(..).Scan(..)`
  yields the first row satisfying the `WHERE` clause, or `sql.ErrNoRows` with
  the destinations left at their zero values.  Statements quantified over all
  databases cover every order in which the server may return the rows.
  Connection faults are outside the model.
-/

namespace GophKeeper

/-! ## Go values and errors -/

/-- Go `[]byte`, modelled as the same byte sequence as a Go `string`. -/
abbrev Bytes := String

/-- Go `len` on a string or byte slice: the number of bytes. -/
def len (s : String) : Nat := s.utf8ByteSize

/-- Modelled from the spec: the package `storageerrors` is not among the
sources; `errNotExists` stands for the value of
`storageerrors.NewErrNotExists()`, the storage NotFound error, which
`errors.Is` recognises.  The other constructors are the Go error values that
occur in the embedded code: `sql.ErrNoRows`, `http.ErrNoCookie`, any other
error by its message, and an error wrapping another one with `%w`. -/
inductive GoError where
  | sqlErrNoRows
  | errNotExists
  | httpErrNoCookie
  | other (msg : String)
  | wrapped (msg : String) (inner : GoError)
  deriving DecidableEq, Repr

/-- Go `errors.Is(err, target)`: walks the chain of wrapped errors of `err`. -/
def errorsIsChain : GoError → GoError → Bool
  | .wrapped msg inner, target =>
      decide (GoError.wrapped msg inner = target) || errorsIsChain inner target
  | e, target => decide (e = target)

/-- Go `errors.Is(err, target)` for a possibly nil `err` and a non-nil target. -/
def errorsIs (err : Option GoError) (target : GoError) : Bool :=
  match err with
  | none => false
  | some e => errorsIsChain e target

/-- Go `strconv.Itoa`: the decimal text of an `int`. -/
def Itoa (i : Int) : String :=
  match i with
  | Int.ofNat n => Nat.repr n
  | Int.negSucc n => "-" ++ Nat.repr (n + 1)

/-- A Go value of interface type `any`, with its dynamic type. -/
inductive AnyValue where
  | int (n : Int)
  | int64 (n : Int)
  | string (s : String)
  | bool (b : Bool)
  deriving DecidableEq, Repr

/-- Go type assertion `v.(int)` in its two-result form, on a possibly nil
interface value: the zero value and `false` when the dynamic type is not `int`. -/
def assertInt (v : Option AnyValue) : Int × Bool :=
  match v with
  | some (AnyValue.int n) => (n, true)
  | _ => (0, false)

/-! ## `net/http` and `context` -/

def StatusOK : Nat := 200
def StatusBadRequest : Nat := 400
def StatusUnauthorized : Nat := 401
def StatusInternalServerError : Nat := 500

/-- Keys of `context.WithValue`.  Two keys are equal when both their dynamic
type and their value are equal, so a key of type `UserIDContextKeyType` differs
from a plain string with the same text. -/
inductive CtxKey where
  | userIDContextKeyType (s : String)
  | string (s : String)
  deriving DecidableEq, Repr

/-- A `context.Context`, as the chain of its values, innermost first. -/
abbrev Context := List (CtxKey × AnyValue)

/-- Go `context.WithValue`. -/
def Context.WithValue (ctx : Context) (k : CtxKey) (v : AnyValue) : Context :=
  (k, v) :: ctx

/-- Go `ctx.Value(key)`: the innermost value stored under the key, or nil. -/
def Context.Value (ctx : Context) (k : CtxKey) : Option AnyValue :=
  match ctx with
  | [] => none
  | (k', v) :: rest => if k' = k then some v else Context.Value rest k

/-- The parts of an `*http.Request` the handlers read.  `Body` and `BodyErr`
are what `io.ReadAll(r.Body)` returns. -/
structure Request where
  Path : String
  Cookies : List (String × String)
  Ctx : Context
  Body : Bytes
  BodyErr : Option GoError
  deriving DecidableEq, Repr

/-- Go `r.Cookie(name)`: the value of the first cookie with that name, or
`http.ErrNoCookie`. -/
def Request.Cookie (r : Request) (name : String) : String × Option GoError :=
  match r.Cookies.find? (fun c => c.1 == name) with
  | some c => (c.2, none)
  | none => ("", some GoError.httpErrNoCookie)

/-- Go `r.WithContext(ctx)`: a copy of the request with its context replaced. -/
def Request.WithContext (r : Request) (ctx : Context) : Request :=
  { r with Ctx := ctx }

/-- An `http.ResponseWriter`.  `Status` is `none` until the header is written;
`Header` is the live header map, `SentHeader` its snapshot at the moment the
header was written; `Body` holds the bytes written. -/
structure ResponseWriter where
  Status : Option Nat
  Header : List (String × String)
  SentHeader : List (String × String)
  Body : Bytes
  deriving DecidableEq, Repr

/-- A writer nothing has been written to. -/
def ResponseWriter.fresh : ResponseWriter :=
  { Status := none, Header := [], SentHeader := [], Body := "" }

/-- Go `w.WriteHeader(code)`: only the first call takes effect. -/
def ResponseWriter.WriteHeader (w : ResponseWriter) (code : Nat) : ResponseWriter :=
  match w.Status with
  | none => { w with Status := some code, SentHeader := w.Header }
  | some _ => w

/-- Go `w.Header().Set(k, v)`. -/
def ResponseWriter.HeaderSet (w : ResponseWriter) (k v : String) : ResponseWriter :=
  { w with Header := (k, v) :: w.Header.filter (fun p => p.1 != k) }

/-- Go `w.Write(b)`: writes the header with status 200 first if none was
written, then appends the bytes. -/
def ResponseWriter.Write (w : ResponseWriter) (b : Bytes) : ResponseWriter :=
  let w1 := match w.Status with
    | none => w.WriteHeader StatusOK
    | some _ => w
  { w1 with Body := w1.Body ++ b }

/-- The status the client receives: 200 when the handler returned without
writing a header. -/
def ResponseWriter.wireStatus (w : ResponseWriter) : Nat :=
  match w.Status with
  | some c => c
  | none => StatusOK

/-! ## Entities and collaborators -/

/-- Modelled from the spec: the package `entities` is not among the sources;
these are the fields of `entities.User` that the embedded code reads or
writes: the id, the login, the submitted raw password, and the salted hash and
salt that `secure.HashPassword` produces. -/
structure User where
  ID : Int
  Login : String
  Password : String
  PasswordHash : Bytes
  PasswordSalt : Bytes
  deriving DecidableEq, Repr

/-- The zero value `entities.User{}`. -/
def User.zero : User :=
  { ID := 0, Login := "", Password := "", PasswordHash := "", PasswordSalt := "" }

/-- A call made by a handler on one of its collaborators. -/
inductive Event where
  | nextServeHTTP (r : Request)
  | getUserID (token : String)
  | hashPassword (password : Bytes)
  | auth (user : User)
  | buildNewJWTString (userID : Int)
  | getPasswordByLogin (ownerID : Int) (login : String)
  | getText (ownerID : Int) (textName : String)
  | getLoginAndPasswordKey (userID dataID : String)
  | getTextDataKey (userID dataID : String)
  | decryptAESGCM (ciphertext key : Bytes)
  deriving DecidableEq, Repr

/-- What a handler acts on: the response writer and the trace of collaborator
calls made so far, oldest first. -/
structure World where
  w : ResponseWriter
  trace : List Event
  deriving DecidableEq, Repr

/-- The world a request starts in. -/
def World.fresh : World := { w := ResponseWriter.fresh, trace := [] }

/-- Appends a collaborator call to the trace. -/
def World.record (s : World) (e : Event) : World :=
  { s with trace := s.trace ++ [e] }

/-- An `http.Handler`: `ServeHTTP(w, r)`. -/
abbrev Handler := Request → World → World

/-- Go `next.ServeHTTP(w, r)`, recorded in the trace. -/
def ServeHTTP (next : Handler) (r : Request) (s : World) : World :=
  next r (s.record (Event.nextServeHTTP r))

/-- The interface `requiredInterfaces.JWTHelper`. -/
structure JWTHelper where
  GetUserID : String → Int × Option GoError
  BuildNewJWTString : Int → String × Option GoError

/-! ## `middlewares.GetAuthMW` -/

def JWTCookieName : String := "AuthJWT"

def UserIDContextKey : CtxKey := CtxKey.userIDContextKeyType "UserID"

/-- The handler `GetAuthMW(logger, jh)(next)`.  On the last line the source
evaluates `r.WithContext(..)` and drops the result. -/
def GetAuthMW (jh : JWTHelper) (next : Handler) : Handler := fun r s =>
  if r.Path = "/api/login" then
    ServeHTTP next r s
  else if r.Path = "/api/register" then
    ServeHTTP next r s
  else
    let (cookieValue, err) := r.Cookie JWTCookieName
    match err with
    | some _ => { s with w := s.w.WriteHeader StatusUnauthorized }
    | none =>
      let s1 := s.record (Event.getUserID cookieValue)
      let (userID, err) := jh.GetUserID cookieValue
      match err with
      | some _ => { s1 with w := s1.w.WriteHeader StatusUnauthorized }
      | none =>
        let _dropped := r.WithContext (r.Ctx.WithValue UserIDContextKey (AnyValue.int userID))
        s1

/-! ## `httphandlers` -/

/-- The storage methods the read handlers call (`h.Storage`). -/
structure Storage where
  GetPasswordByLogin : Int → String → String × Int × Option GoError
  GetText : Int → String → Bytes × Int × Option GoError

/-- The key keeper methods the read handlers call (`h.KeyKeeper`). -/
structure KeyKeeper where
  GetLoginAndPasswordKey : String → String → String × Option GoError
  GetTextDataKey : String → String → String × Option GoError

/-- The encryptor method the read handlers call (`h.Encryptor`). -/
structure Encryptor where
  DecryptAESGCM : Bytes → Bytes → Bytes × Option GoError

/-- The user manager method `LogIn` calls (`h.UserManager`). -/
structure UserManager where
  Auth : User → Int × Option GoError

/-- The receiver `handlerHTTP` with the collaborators the embedded handlers
use.  `HashPassword` is the package function `secure.HashPassword` and
`Unmarshal` is `json.Unmarshal(bytes, &user)` applied to a zero user; neither
is among the sources, so both are taken as parameters. -/
structure handlerHTTP where
  UserManager : UserManager
  JWTHelper : JWTHelper
  Storage : Storage
  KeyKeeper : KeyKeeper
  Encryptor : Encryptor
  HashPassword : Bytes → Bytes × Bytes × Option GoError
  Unmarshal : Bytes → User → User × Option GoError

/-- The handler `(h *handlerHTTP) LogIn`. -/
def LogIn (h : handlerHTTP) : Handler := fun r s =>
  match r.BodyErr with
  | some _ => { s with w := s.w.WriteHeader StatusBadRequest }
  | none =>
    let (user, err) := h.Unmarshal r.Body User.zero
    match err with
    | some _ => { s with w := s.w.WriteHeader StatusBadRequest }
    | none =>
      if len user.Password = 0 then
        { s with w := s.w.WriteHeader StatusBadRequest }
      else if len user.Login = 0 then
        { s with w := s.w.WriteHeader StatusBadRequest }
      else
        let s1 := s.record (Event.hashPassword user.Password)
        let (hash, salt, err) := h.HashPassword user.Password
        let user1 := { user with PasswordHash := hash, PasswordSalt := salt }
        match err with
        | some _ => { s1 with w := s1.w.WriteHeader StatusInternalServerError }
        | none =>
          let s2 := s1.record (Event.auth user1)
          let (id, err) := h.UserManager.Auth user1
          let user2 := { user1 with ID := id }
          if errorsIs err GoError.errNotExists then
            { s2 with w := s2.w.WriteHeader StatusUnauthorized }
          else match err with
          | some _ => { s2 with w := s2.w.WriteHeader StatusInternalServerError }
          | none =>
            let s3 := s2.record (Event.buildNewJWTString user2.ID)
            let (JWTString, err) := h.JWTHelper.BuildNewJWTString user2.ID
            match err with
            | some _ => { s3 with w := s3.w.WriteHeader StatusInternalServerError }
            | none =>
              { s3 with w := ((s3.w.WriteHeader StatusOK).HeaderSet
                  "Content-Type" "text/plain").Write JWTString }

/-- The handler `(h *handlerHTTP) PasswordGet`. -/
def PasswordGet (h : handlerHTTP) : Handler := fun r s =>
  let userID := r.Ctx.Value UserIDContextKey
  let (userIDInt, ok) := assertInt userID
  if !ok || userIDInt ≤ 0 then
    { s with w := s.w.WriteHeader StatusUnauthorized }
  else
    match r.BodyErr with
    | some _ => { s with w := s.w.WriteHeader StatusInternalServerError }
    | none =>
      let loginStr := r.Body
      if len loginStr = 0 then
        { s with w := s.w.WriteHeader StatusBadRequest }
      else
        let s1 := s.record (Event.getPasswordByLogin userIDInt loginStr)
        let (encryptedPassword, dataID, err) := h.Storage.GetPasswordByLogin userIDInt loginStr
        match err with
        | some _ => { s1 with w := s1.w.WriteHeader StatusInternalServerError }
        | none =>
          let s2 := s1.record (Event.getLoginAndPasswordKey (Itoa userIDInt) (Itoa dataID))
          let (key, err) := h.KeyKeeper.GetLoginAndPasswordKey (Itoa userIDInt) (Itoa dataID)
          match err with
          | some _ => { s2 with w := s2.w.WriteHeader StatusInternalServerError }
          | none =>
            let s3 := s2.record (Event.decryptAESGCM encryptedPassword key)
            let (passwordBytes, err) := h.Encryptor.DecryptAESGCM encryptedPassword key
            match err with
            | some _ => { s3 with w := s3.w.WriteHeader StatusInternalServerError }
            | none => { s3 with w := (s3.w.WriteHeader StatusOK).Write passwordBytes }

/-- The handler `(h *handlerHTTP) TextDataGet`. -/
def TextDataGet (h : handlerHTTP) : Handler := fun r s =>
  let userID := r.Ctx.Value UserIDContextKey
  let (userIDInt, ok) := assertInt userID
  if !ok || userIDInt ≤ 0 then
    { s with w := s.w.WriteHeader StatusUnauthorized }
  else
    match r.BodyErr with
    | some _ => { s with w := s.w.WriteHeader StatusInternalServerError }
    | none =>
      let textNameStr := r.Body
      if len textNameStr = 0 then
        { s with w := s.w.WriteHeader StatusBadRequest }
      else
        let s1 := s.record (Event.getText userIDInt textNameStr)
        let (encryptedText, dataID, err) := h.Storage.GetText userIDInt textNameStr
        match err with
        | some _ => { s1 with w := s1.w.WriteHeader StatusInternalServerError }
        | none =>
          let s2 := s1.record (Event.getTextDataKey (Itoa userIDInt) (Itoa dataID))
          let (key, err) := h.KeyKeeper.GetTextDataKey (Itoa userIDInt) (Itoa dataID)
          match err with
          | some _ => { s2 with w := s2.w.WriteHeader StatusInternalServerError }
          | none =>
            let s3 := s2.record (Event.decryptAESGCM encryptedText key)
            let (decryptedText, err) := h.Encryptor.DecryptAESGCM encryptedText key
            match err with
            | some _ => { s3 with w := s3.w.WriteHeader StatusInternalServerError }
            | none => { s3 with w := (s3.w.WriteHeader StatusOK).Write decryptedText }

/-! ## `PostgreSQL.PostgresDB` -/

/-- A row of table `users`. -/
structure UserRow where
  id : Int
  login : String
  password : String
  deriving DecidableEq, Repr

/-- A row of table `bank_cards`. -/
structure BankCardRow where
  id : Int
  owner_id : Int
  last_four_digits : Int
  card_data : String
  deriving DecidableEq, Repr

/-- A row of table `logins_and_passwords`. -/
structure LoginPasswordRow where
  id : Int
  owner_id : Int
  login : String
  password : String
  deriving DecidableEq, Repr

/-- A row of table `texts`. -/
structure TextRow where
  id : Int
  owner_id : Int
  text_name : String
  text_data : String
  deriving DecidableEq, Repr

/-- The database behind `PostgresDB.db`: the four tables of `initTables` and
the last value handed out by the `SERIAL` sequence of `users.id`. -/
structure PostgresDB where
  users : List UserRow
  users_id_seq : Int
  bank_cards : List BankCardRow
  logins_and_passwords : List LoginPasswordRow
  texts : List TextRow
  deriving DecidableEq, Repr

/-- The method `(p *PostgresDB) GetBankCard`. -/
def PostgresDB.GetBankCard (p : PostgresDB) (ownerID : Int) (lastFourDigits : Int) :
    String × Int × Option GoError :=
  match p.bank_cards.find?
      (fun row => decide (row.owner_id = ownerID) && decide (row.last_four_digits = lastFourDigits)) with
  | some row => (row.card_data, row.id, none)
  | none => ("", 0, some GoError.sqlErrNoRows)

/-- The method `(p *PostgresDB) GetPasswordByLogin`. -/
def PostgresDB.GetPasswordByLogin (p : PostgresDB) (ownerID : Int) (login : String) :
    String × Int × Option GoError :=
  match p.logins_and_passwords.find?
      (fun row => decide (row.owner_id = ownerID) && decide (row.login = login)) with
  | some row => (row.password, row.id, none)
  | none => ("", 0, some GoError.sqlErrNoRows)

/-- The method `(p *PostgresDB) GetText`. -/
def PostgresDB.GetText (p : PostgresDB) (ownerID : Int) (textName : String) :
    String × Int × Option GoError :=
  let (textData, dataID, err) :=
    match p.texts.find?
        (fun row => decide (row.owner_id = ownerID) && decide (row.text_name = textName)) with
    | some row => (row.text_data, row.id, (none : Option GoError))
    | none => ("", 0, some GoError.sqlErrNoRows)
  if errorsIs err GoError.sqlErrNoRows then
    ("", 0, some GoError.errNotExists)
  else
    (textData, dataID, err)

/-- The method `(p *PostgresDB) CreateUser`: the `INSERT` into `users`, which
the `UNIQUE` constraint on `login` rejects when the login is taken.  The
sequence advances either way. -/
def PostgresDB.CreateUser (p : PostgresDB) (user : User) : PostgresDB × Int × Option GoError :=
  let id := p.users_id_seq + 1
  if p.users.any (fun row => decide (row.login = user.Login)) then
    ({ p with users_id_seq := id }, 0,
      some (GoError.other "duplicate key value violates unique constraint"))
  else
    ({ p with
        users := p.users ++ [{ id := id, login := user.Login, password := user.Password }],
        users_id_seq := id }, id, none)

/-- The method `(p *PostgresDB) AuthUser`. -/
def PostgresDB.AuthUser (p : PostgresDB) (user : User) : Int × Option GoError :=
  let (id, err) :=
    match p.users.find?
        (fun row => decide (row.login = user.Login) && decide (row.password = user.Password)) with
    | some row => (row.id, (none : Option GoError))
    | none => (0, some GoError.sqlErrNoRows)
  if errorsIs err GoError.sqlErrNoRows then
    (0, some GoError.errNotExists)
  else
    (id, err)

/-! ## Concrete collaborators and requests

The scenario of the specification: user 1 is `alice` with password `s3cr3t`;
she stored `hunter2` under the lookup key `github` (record 7), a note under
`note` (record 3) and a card ending in 1234 (record 5). -/

/-- An empty database. -/
def emptyDB : PostgresDB :=
  { users := [], users_id_seq := 0, bank_cards := [], logins_and_passwords := [], texts := [] }

/-- The database of the scenario. -/
def aliceDB : PostgresDB :=
  { users := [{ id := 1, login := "alice", password := "s3cr3t" }],
    users_id_seq := 1,
    bank_cards := [{ id := 5, owner_id := 1, last_four_digits := 1234, card_data := "sealed-card" }],
    logins_and_passwords :=
      [{ id := 7, owner_id := 1, login := "github", password := "sealed-hunter2" }],
    texts := [{ id := 3, owner_id := 1, text_name := "note", text_data := "sealed-note" }] }

/-- The scenario database after the stored ciphertexts were tampered with. -/
def tamperedDB : PostgresDB :=
  { aliceDB with
    logins_and_passwords :=
      [{ id := 7, owner_id := 1, login := "github", password := "sealed-hunter2-flipped" }],
    texts := [{ id := 3, owner_id := 1, text_name := "note", text_data := "sealed-note-flipped" }] }

/-- A database whose `users.password` column holds the hash instead. -/
def hashColumnDB : PostgresDB :=
  { emptyDB with
    users := [{ id := 1, login := "alice", password := "hash-of-s3cr3t" }], users_id_seq := 1 }

/-- A JWT helper that accepts the single token `tok`, issued to user 7. -/
def sampleJWTHelper : JWTHelper :=
  { GetUserID := fun token =>
      if token = "tok" then (7, none) else (0, some (GoError.other "token is malformed")),
    BuildNewJWTString := fun userID => ("jwt-" ++ Itoa userID, none) }

/-- A key keeper with one key per record kind, user and record. -/
def sampleKeyKeeper : KeyKeeper :=
  { GetLoginAndPasswordKey := fun userID dataID => ("lp/" ++ userID ++ "/" ++ dataID, none),
    GetTextDataKey := fun userID dataID => ("text/" ++ userID ++ "/" ++ dataID, none) }

/-- An encryptor that opens the two sealed payloads of the scenario under their
own keys and fails on everything else, handing back a non-empty slice. -/
def sampleEncryptor : Encryptor :=
  { DecryptAESGCM := fun ciphertext key =>
      if ciphertext = "sealed-hunter2" ∧ key = "lp/1/7" then ("hunter2", none)
      else if ciphertext = "sealed-note" ∧ key = "text/1/3" then ("buy milk", none)
      else ("garbage", some (GoError.other "cipher: message authentication failed")) }

def loginBodyWrongPassword : Bytes := "login=alice password=wrong"
def loginBodyUnknownLogin : Bytes := "login=mallory password=wrong"
def loginBodyEmptyPassword : Bytes := "login=alice password="
def loginBodyGood : Bytes := "login=alice password=s3cr3t"

/-- A stand-in for `json.Unmarshal` that decodes the four bodies above. -/
def sampleUnmarshal (b : Bytes) (u : User) : User × Option GoError :=
  if b = loginBodyWrongPassword then ({ u with Login := "alice", Password := "wrong" }, none)
  else if b = loginBodyUnknownLogin then ({ u with Login := "mallory", Password := "wrong" }, none)
  else if b = loginBodyEmptyPassword then ({ u with Login := "alice" }, none)
  else if b = loginBodyGood then ({ u with Login := "alice", Password := "s3cr3t" }, none)
  else (u, some (GoError.other "invalid character"))

/-- The handlers wired to a database. -/
def handlerOn (db : PostgresDB) : handlerHTTP :=
  { UserManager := { Auth := db.AuthUser },
    JWTHelper := sampleJWTHelper,
    Storage := { GetPasswordByLogin := db.GetPasswordByLogin, GetText := db.GetText },
    KeyKeeper := sampleKeyKeeper,
    Encryptor := sampleEncryptor,
    HashPassword := fun password => ("hash-of-" ++ password, "salt", none),
    Unmarshal := sampleUnmarshal }

/-- A wrapped handler that answers 200 with a body. -/
def sampleNext : Handler := fun _ s =>
  { s with w := (s.w.WriteHeader StatusOK).Write "secret" }

/-- A request for a protected path carrying a valid token. -/
def tokenRequest : Request :=
  { Path := "/api/password", Cookies := [("AuthJWT", "tok")], Ctx := [], Body := "github",
    BodyErr := none }

/-- The same request without the cookie. -/
def noCookieRequest : Request := { tokenRequest with Cookies := [("lang", "en")] }

/-- The same request with a token the validator rejects. -/
def badTokenRequest : Request := { tokenRequest with Cookies := [("AuthJWT", "forged")] }

/-- A login request. -/
def loginRequest (body : Bytes) : Request :=
  { Path := "/api/login", Cookies := [], Ctx := [], Body := body, BodyErr := none }

/-- A read request whose context carries `userID` under `UserIDContextKey`. -/
def readRequest (userID : AnyValue) (lookupKey : Bytes) : Request :=
  { Path := "/api/password", Cookies := [("AuthJWT", "tok")],
    Ctx := Context.WithValue [] UserIDContextKey userID, Body := lookupKey, BodyErr := none }

/-- The user value `LogIn` hands to `Auth` for `loginBodyGood`. -/
def aliceAsBuiltByLogIn : User :=
  { ID := 0, Login := "alice", Password := "s3cr3t", PasswordHash := "hash-of-s3cr3t",
    PasswordSalt := "salt" }

/-- A database in which users 1 and 2 each hold a record of every kind under
the same lookup key. -/
def twoOwnersDB : PostgresDB :=
  { users := [{ id := 1, login := "alice", password := "s3cr3t" },
              { id := 2, login := "bob", password := "pa55" }],
    users_id_seq := 2,
    bank_cards :=
      [{ id := 5, owner_id := 1, last_four_digits := 1234, card_data := "sealed-card-of-1" },
       { id := 6, owner_id := 2, last_four_digits := 1234, card_data := "sealed-card-of-2" }],
    logins_and_passwords :=
      [{ id := 7, owner_id := 1, login := "github", password := "sealed-password-of-1" },
       { id := 8, owner_id := 2, login := "github", password := "sealed-password-of-2" }],
    texts :=
      [{ id := 3, owner_id := 1, text_name := "note", text_data := "sealed-note-of-1" },
       { id := 4, owner_id := 2, text_name := "note", text_data := "sealed-note-of-2" }] }

/-! ## Auxiliary facts -/

theorem len_eq_zero_iff (s : String) : len s = 0 ↔ s = "" := by
  constructor
  · intro h
    obtain ⟨cs⟩ := s
    cases cs with
    | nil => rfl
    | cons c cs =>
      exfalso
      simp only [len, String.utf8ByteSize, String.utf8ByteSize.go] at h
      have := Char.utf8Size_pos c
      omega
  · intro h
    subst h
    rfl

theorem writeHeader_status (w : ResponseWriter) (code : Nat) (hs : w.Status = none) :
    (w.WriteHeader code).Status = some code := by
  simp [ResponseWriter.WriteHeader, hs]

theorem writeHeader_body (w : ResponseWriter) (code : Nat) :
    (w.WriteHeader code).Body = w.Body := by
  unfold ResponseWriter.WriteHeader
  split <;> rfl

theorem fresh_ok_write (p : Bytes) :
    ((ResponseWriter.fresh.WriteHeader StatusOK).Write p).Status = some StatusOK ∧
    ((ResponseWriter.fresh.WriteHeader StatusOK).Write p).Body = p := by
  simp [ResponseWriter.fresh, ResponseWriter.WriteHeader, ResponseWriter.Write]

theorem cookie_absent (r : Request) (name : String)
    (h : ∀ c ∈ r.Cookies, c.1 ≠ name) :
    r.Cookie name = ("", some GoError.httpErrNoCookie) := by
  have hf : r.Cookies.find? (fun c => c.1 == name) = none := by
    rw [List.find?_eq_none]
    intro c hc
    simpa using h c hc
  simp [Request.Cookie, hf]

theorem authUser_no_match (p : PostgresDB) (user : User)
    (hno : ∀ row ∈ p.users, ¬ (row.login = user.Login ∧ row.password = user.Password)) :
    p.AuthUser user = (0, some GoError.errNotExists) := by
  have hf : p.users.find?
      (fun row => decide (row.login = user.Login) && decide (row.password = user.Password))
      = none := by
    rw [List.find?_eq_none]
    intro row hrow
    simpa using hno row hrow
  simp [PostgresDB.AuthUser, hf, errorsIs, errorsIsChain]

theorem logIn_not_exists (h : handlerHTTP) (r : Request) (s : World) (u : User)
    (hash salt : Bytes) (id : Int) (e : GoError)
    (hb : r.BodyErr = none) (hp : h.Unmarshal r.Body User.zero = (u, none))
    (hl : u.Login ≠ "") (hpw : u.Password ≠ "")
    (hh : h.HashPassword u.Password = (hash, salt, none))
    (ha : h.UserManager.Auth { u with PasswordHash := hash, PasswordSalt := salt } = (id, some e))
    (hne : errorsIs (some e) GoError.errNotExists = true) :
    LogIn h r s =
      { w := s.w.WriteHeader StatusUnauthorized,
        trace := s.trace ++ [Event.hashPassword u.Password,
          Event.auth { u with PasswordHash := hash, PasswordSalt := salt }] } := by
  have h1 : len u.Password ≠ 0 := fun hc => hpw ((len_eq_zero_iff _).1 hc)
  have h2 : len u.Login ≠ 0 := fun hc => hl ((len_eq_zero_iff _).1 hc)
  simp [LogIn, hb, hp, h1, h2, hh, ha, hne, World.record]

theorem find_row_some {α κ : Type} [DecidableEq κ] (rows : List α) (own : α → Int)
    (key : α → κ) (B : Int) (k : κ) (row : α)
    (h : rows.find? (fun x => decide (own x = B) && decide (key x = k)) = some row) :
    row ∈ rows ∧ own row = B ∧ key row = k := by
  have hm := List.mem_of_find?_eq_some h
  have hp := List.find?_some h
  simp only [Bool.and_eq_true, decide_eq_true_eq] at hp
  exact ⟨hm, hp.1, hp.2⟩

theorem find_row_none {α κ : Type} [DecidableEq κ] (rows : List α) (own : α → Int)
    (key : α → κ) (B : Int) (k : κ)
    (h : ∀ x ∈ rows, key x = k → own x ≠ B) :
    rows.find? (fun x => decide (own x = B) && decide (key x = k)) = none := by
  rw [List.find?_eq_none]
  intro x hx
  simp only [Bool.and_eq_true, decide_eq_true_eq, not_and]
  intro ho hk
  exact h x hx hk ho

theorem id_unique {α : Type} (rows : List α) (ident : α → Int)
    (hpk : (rows.map ident).Nodup) (x y : α) (hx : x ∈ rows) (hy : y ∈ rows)
    (hxy : ident x = ident y) : x = y :=
  List.inj_on_of_nodup_map hpk hx hy hxy

theorem getPasswordByLogin_some (p : PostgresDB) (B : Int) (login data : String) (id : Int)
    (h : p.GetPasswordByLogin B login = (data, id, none)) :
    ∃ row ∈ p.logins_and_passwords,
      row.owner_id = B ∧ row.login = login ∧ row.password = data ∧ row.id = id := by
  unfold PostgresDB.GetPasswordByLogin at h
  split at h
  · rename_i row hf
    obtain ⟨hm, ho, hk⟩ := find_row_some _ (fun x => x.owner_id) (fun x => x.login) B login row hf
    simp only [Prod.mk.injEq, and_true] at h
    exact ⟨row, hm, ho, hk, h.1, h.2⟩
  · simp at h

theorem getBankCard_some (p : PostgresDB) (B : Int) (digits : Int) (data : String) (id : Int)
    (h : p.GetBankCard B digits = (data, id, none)) :
    ∃ row ∈ p.bank_cards,
      row.owner_id = B ∧ row.last_four_digits = digits ∧ row.card_data = data ∧ row.id = id := by
  unfold PostgresDB.GetBankCard at h
  split at h
  · rename_i row hf
    obtain ⟨hm, ho, hk⟩ :=
      find_row_some _ (fun x => x.owner_id) (fun x => x.last_four_digits) B digits row hf
    simp only [Prod.mk.injEq, and_true] at h
    exact ⟨row, hm, ho, hk, h.1, h.2⟩
  · simp at h

theorem getText_some (p : PostgresDB) (B : Int) (textName data : String) (id : Int)
    (h : p.GetText B textName = (data, id, none)) :
    ∃ row ∈ p.texts,
      row.owner_id = B ∧ row.text_name = textName ∧ row.text_data = data ∧ row.id = id := by
  unfold PostgresDB.GetText at h
  rcases hf : p.texts.find?
      (fun row => decide (row.owner_id = B) && decide (row.text_name = textName)) with _ | row
  · rw [hf] at h
    simp [errorsIs, errorsIsChain] at h
  · rw [hf] at h
    obtain ⟨hm, ho, hk⟩ :=
      find_row_some _ (fun x => x.owner_id) (fun x => x.text_name) B textName row hf
    simp [errorsIs] at h
    exact ⟨row, hm, ho, hk, h.1, h.2⟩

theorem getPasswordByLogin_none (p : PostgresDB) (B : Int) (login : String)
    (h : ∀ row ∈ p.logins_and_passwords, row.login = login → row.owner_id ≠ B) :
    p.GetPasswordByLogin B login = ("", 0, some GoError.sqlErrNoRows) := by
  have hf := find_row_none p.logins_and_passwords (fun x => x.owner_id) (fun x => x.login)
    B login h
  unfold PostgresDB.GetPasswordByLogin
  rw [hf]

theorem getBankCard_none (p : PostgresDB) (B : Int) (digits : Int)
    (h : ∀ row ∈ p.bank_cards, row.last_four_digits = digits → row.owner_id ≠ B) :
    p.GetBankCard B digits = ("", 0, some GoError.sqlErrNoRows) := by
  have hf := find_row_none p.bank_cards (fun x => x.owner_id) (fun x => x.last_four_digits)
    B digits h
  unfold PostgresDB.GetBankCard
  rw [hf]

theorem getText_none (p : PostgresDB) (B : Int) (textName : String)
    (h : ∀ row ∈ p.texts, row.text_name = textName → row.owner_id ≠ B) :
    p.GetText B textName = ("", 0, some GoError.errNotExists) := by
  have hf := find_row_none p.texts (fun x => x.owner_id) (fun x => x.text_name)
    B textName h
  unfold PostgresDB.GetText
  rw [hf]
  simp [errorsIs, errorsIsChain]

/-! ## The authentication gate -/

/-- Claim C1, evaluated on the code.  The request `tokenRequest` is for a
protected path and carries the cookie `AuthJWT=tok`, for which the validator
returns user 7 without error; the gate calls the validator and then returns: the
wrapped handler is not invoked (the trace has no `nextServeHTTP` entry and the
writer is untouched, so the client receives an empty 200), whereas on the two
bootstrap paths the same gate does invoke it, once, with the request. -/
theorem GetAuthMW_valid_token_does_not_reach_next :
    sampleJWTHelper.GetUserID "tok" = (7, none) ∧
    GetAuthMW sampleJWTHelper sampleNext tokenRequest World.fresh
      = { w := ResponseWriter.fresh, trace := [Event.getUserID "tok"] } ∧
    (GetAuthMW sampleJWTHelper sampleNext tokenRequest World.fresh).trace.count
      (Event.nextServeHTTP (tokenRequest.WithContext
        (tokenRequest.Ctx.WithValue UserIDContextKey (AnyValue.int 7)))) = 0 ∧
    (GetAuthMW sampleJWTHelper sampleNext tokenRequest World.fresh).w.wireStatus = StatusOK ∧
    (GetAuthMW sampleJWTHelper sampleNext tokenRequest World.fresh).w.Body = "" ∧
    (GetAuthMW sampleJWTHelper sampleNext (loginRequest loginBodyGood) World.fresh).trace
      = [Event.nextServeHTTP (loginRequest loginBodyGood)] ∧
    (GetAuthMW sampleJWTHelper sampleNext (loginRequest loginBodyGood) World.fresh).w.Body
      = "secret" := by
  decide

/-- Claim C2.  For a request whose path is neither `/api/login` nor
`/api/register`, if no cookie is named `AuthJWT`, or `GetUserID` returns an
error for the cookie value, the gate answers 401 Unauthorized, writes no body,
and does not invoke the wrapped handler, whatever that handler is: the result
does not depend on `next` and the trace gains no `nextServeHTTP` entry.  When
the cookie is absent the trace is unchanged, so the validator is not called
either; when the validator rejects, the only call made is that one. -/
theorem GetAuthMW_strict_short_circuit (jh : JWTHelper) (next : Handler) (r : Request)
    (s : World)
    (hl : r.Path ≠ "/api/login") (hr : r.Path ≠ "/api/register")
    (hs : s.w.Status = none)
    (hfail : (∀ c ∈ r.Cookies, c.1 ≠ JWTCookieName) ∨
      (jh.GetUserID (r.Cookie JWTCookieName).1).2 ≠ none) :
    (GetAuthMW jh next r s).w.Status = some StatusUnauthorized ∧
    (GetAuthMW jh next r s).w.Body = s.w.Body ∧
    (∀ r1, Event.nextServeHTTP r1 ∈ (GetAuthMW jh next r s).trace →
        Event.nextServeHTTP r1 ∈ s.trace) ∧
    ((∀ c ∈ r.Cookies, c.1 ≠ JWTCookieName) → (GetAuthMW jh next r s).trace = s.trace) ∧
    ((GetAuthMW jh next r s).trace = s.trace ∨
      (GetAuthMW jh next r s).trace
        = s.trace ++ [Event.getUserID (r.Cookie JWTCookieName).1]) := by
  have key : (∀ c ∈ r.Cookies, c.1 ≠ JWTCookieName) →
      GetAuthMW jh next r s = { s with w := s.w.WriteHeader StatusUnauthorized } := by
    intro h
    simp [GetAuthMW, hl, hr, cookie_absent r _ h]
  by_cases hc : ∀ c ∈ r.Cookies, c.1 ≠ JWTCookieName
  · rw [key hc]
    exact ⟨writeHeader_status _ _ hs, writeHeader_body _ _, fun _ h => h, fun _ => rfl,
      Or.inl rfl⟩
  · have hv : (jh.GetUserID (r.Cookie JWTCookieName).1).2 ≠ none := by
      rcases hfail with h | h
      · exact absurd h hc
      · exact h
    refine ⟨?_, ?_, ?_, fun h => absurd h hc, ?_⟩
    all_goals
      simp only [GetAuthMW, hl, hr, if_false]
      rcases hck : r.Cookie JWTCookieName with ⟨v, e⟩
      rcases hg : jh.GetUserID v with ⟨uid, e2⟩
      rw [hck] at hv
      simp only [hg] at hv
      cases e <;> cases e2 <;> simp_all [World.record, ResponseWriter.WriteHeader]

/-- Witness for C2: the request without the cookie, and the request with a
forged token, both on a protected path, in front of a handler that would
answer 200 with a body. -/
theorem GetAuthMW_strict_short_circuit_witness :
    GetAuthMW sampleJWTHelper sampleNext noCookieRequest World.fresh
      = { w := ResponseWriter.fresh.WriteHeader StatusUnauthorized, trace := [] } ∧
    ((GetAuthMW sampleJWTHelper sampleNext noCookieRequest World.fresh).w.Status
        = some StatusUnauthorized ∧
      (GetAuthMW sampleJWTHelper sampleNext noCookieRequest World.fresh).trace = []) ∧
    ((GetAuthMW sampleJWTHelper sampleNext badTokenRequest World.fresh).w.Status
        = some StatusUnauthorized ∧
      (GetAuthMW sampleJWTHelper sampleNext badTokenRequest World.fresh).w.Body = "") :=
  ⟨by decide,
   ⟨(GetAuthMW_strict_short_circuit sampleJWTHelper sampleNext noCookieRequest World.fresh
      (by decide) (by decide) rfl (Or.inl (by decide))).1,
    (GetAuthMW_strict_short_circuit sampleJWTHelper sampleNext noCookieRequest World.fresh
      (by decide) (by decide) rfl (Or.inl (by decide))).2.2.2.1 (by decide)⟩,
   ⟨(GetAuthMW_strict_short_circuit sampleJWTHelper sampleNext badTokenRequest World.fresh
      (by decide) (by decide) rfl (Or.inr (by decide))).1,
    (GetAuthMW_strict_short_circuit sampleJWTHelper sampleNext badTokenRequest World.fresh
      (by decide) (by decide) rfl (Or.inr (by decide))).2.1⟩⟩

/-! ## Login -/

/-- Claim C3.  When the request body is read and parses to a user whose Login
is empty or whose Password is empty, `LogIn` answers 400 Bad Request, writes no
body, and leaves the trace unchanged: it calls neither `HashPassword` nor
`Auth` nor `BuildNewJWTString`. -/
theorem LogIn_validation_first (h : handlerHTTP) (r : Request) (s : World) (u : User)
    (hb : r.BodyErr = none) (hp : h.Unmarshal r.Body User.zero = (u, none))
    (he : u.Login = "" ∨ u.Password = "") (hs : s.w.Status = none) :
    (LogIn h r s).w.Status = some StatusBadRequest ∧
    (LogIn h r s).w.Body = s.w.Body ∧
    (LogIn h r s).trace = s.trace := by
  have hr : LogIn h r s = { s with w := s.w.WriteHeader StatusBadRequest } := by
    simp only [LogIn, hb, hp]
    by_cases h1 : len u.Password = 0
    · simp [h1]
    · have h2 : len u.Login = 0 := by
        rcases he with he | he
        · exact (len_eq_zero_iff _).2 he
        · exact absurd ((len_eq_zero_iff _).2 he) h1
      simp [h1, h2]
  rw [hr]
  exact ⟨writeHeader_status _ _ hs, writeHeader_body _ _, rfl⟩

/-- Witness for C3: a login request with an empty password, against the
database in which `alice` exists. -/
theorem LogIn_validation_first_witness :
    (handlerOn aliceDB).Unmarshal (loginRequest loginBodyEmptyPassword).Body User.zero
      = ({ User.zero with Login := "alice" }, none) ∧
    (LogIn (handlerOn aliceDB) (loginRequest loginBodyEmptyPassword) World.fresh).w.Status
      = some StatusBadRequest ∧
    (LogIn (handlerOn aliceDB) (loginRequest loginBodyEmptyPassword) World.fresh).w.Body = "" ∧
    (LogIn (handlerOn aliceDB) (loginRequest loginBodyEmptyPassword) World.fresh).trace = [] :=
  ⟨by decide,
   LogIn_validation_first (handlerOn aliceDB) (loginRequest loginBodyEmptyPassword) World.fresh
     { User.zero with Login := "alice" } rfl (by decide) (Or.inr rfl) rfl⟩

/-- Claim C4.  Let a login request parse to a user with non-empty login and
password, and let hashing succeed.  For every users table in which no row
matches both the login and the password, `AuthUser` returns
`(0, ErrNotExists)`, whether or not some row has that login; `LogIn` answers
any `Auth` error that is `ErrNotExists` with 401 Unauthorized, no body, and no
call to `BuildNewJWTString` (the trace ends with the `Auth` call); hence on two
such tables `p1` and `p2`, one that knows the login and one that does not, the
whole outcome of `LogIn` is the same. -/
theorem LogIn_failed_login_indistinguishable (h : handlerHTTP) (p1 p2 : PostgresDB)
    (r : Request) (s : World) (u : User) (hash salt : Bytes)
    (hb : r.BodyErr = none) (hp : h.Unmarshal r.Body User.zero = (u, none))
    (hl : u.Login ≠ "") (hpw : u.Password ≠ "")
    (hh : h.HashPassword u.Password = (hash, salt, none))
    (hs : s.w.Status = none)
    (hno1 : ∀ row ∈ p1.users, ¬ (row.login = u.Login ∧ row.password = u.Password))
    (hno2 : ∀ row ∈ p2.users, ¬ (row.login = u.Login ∧ row.password = u.Password)) :
    p1.AuthUser { u with PasswordHash := hash, PasswordSalt := salt }
      = (0, some GoError.errNotExists) ∧
    p2.AuthUser { u with PasswordHash := hash, PasswordSalt := salt }
      = (0, some GoError.errNotExists) ∧
    (∀ (um : UserManager) (id : Int) (e : GoError),
      um.Auth { u with PasswordHash := hash, PasswordSalt := salt } = (id, some e) →
      errorsIs (some e) GoError.errNotExists = true →
        (LogIn { h with UserManager := um } r s).w.Status = some StatusUnauthorized ∧
        (LogIn { h with UserManager := um } r s).w.Body = s.w.Body ∧
        (LogIn { h with UserManager := um } r s).trace = s.trace ++
          [Event.hashPassword u.Password,
           Event.auth { u with PasswordHash := hash, PasswordSalt := salt }]) ∧
    LogIn { h with UserManager := { Auth := p1.AuthUser } } r s
      = LogIn { h with UserManager := { Auth := p2.AuthUser } } r s ∧
    (LogIn { h with UserManager := { Auth := p1.AuthUser } } r s).w.Status
      = some StatusUnauthorized := by
  have a1 := authUser_no_match p1 { u with PasswordHash := hash, PasswordSalt := salt } hno1
  have a2 := authUser_no_match p2 { u with PasswordHash := hash, PasswordSalt := salt } hno2
  have hne : errorsIs (some GoError.errNotExists) GoError.errNotExists = true := by decide
  have gen : ∀ (um : UserManager) (id : Int) (e : GoError),
      um.Auth { u with PasswordHash := hash, PasswordSalt := salt } = (id, some e) →
      errorsIs (some e) GoError.errNotExists = true →
      LogIn { h with UserManager := um } r s =
        { w := s.w.WriteHeader StatusUnauthorized,
          trace := s.trace ++ [Event.hashPassword u.Password,
            Event.auth { u with PasswordHash := hash, PasswordSalt := salt }] } :=
    fun um id e ha he =>
      logIn_not_exists { h with UserManager := um } r s u hash salt id e hb hp hl hpw hh ha he
  refine ⟨a1, a2, ?_, ?_, ?_⟩
  · intro um id e ha he
    rw [gen um id e ha he]
    exact ⟨writeHeader_status _ _ hs, writeHeader_body _ _, rfl⟩
  · rw [gen { Auth := p1.AuthUser } 0 _ a1 hne, gen { Auth := p2.AuthUser } 0 _ a2 hne]
  · rw [gen { Auth := p1.AuthUser } 0 _ a1 hne]
    exact writeHeader_status _ _ hs

/-- Witness for C4: the wrong password for `alice` against the database that
knows `alice`, and against the empty database, where the login is unknown. -/
theorem LogIn_failed_login_indistinguishable_witness :
    (∃ row ∈ aliceDB.users, row.login = "alice") ∧
    (∀ row ∈ emptyDB.users, row.login ≠ "alice") ∧
    LogIn (handlerOn aliceDB) (loginRequest loginBodyWrongPassword) World.fresh
      = LogIn (handlerOn emptyDB) (loginRequest loginBodyWrongPassword) World.fresh ∧
    (LogIn (handlerOn aliceDB) (loginRequest loginBodyWrongPassword) World.fresh).w.Status
      = some StatusUnauthorized :=
  ⟨by decide, by decide,
   (LogIn_failed_login_indistinguishable (handlerOn aliceDB) aliceDB emptyDB
      (loginRequest loginBodyWrongPassword) World.fresh
      { User.zero with Login := "alice", Password := "wrong" } "hash-of-wrong" "salt"
      rfl (by decide) (by decide) (by decide) (by decide) rfl (by decide) (by decide)).2.2.2.1,
   (LogIn_failed_login_indistinguishable (handlerOn aliceDB) aliceDB emptyDB
      (loginRequest loginBodyWrongPassword) World.fresh
      { User.zero with Login := "alice", Password := "wrong" } "hash-of-wrong" "salt"
      rfl (by decide) (by decide) (by decide) (by decide) rfl (by decide) (by decide)).2.2.2.2⟩

/-! ## Reading a secret -/

/-- Claim C5.  On a fresh writer, for a request whose context carries the
positive int `uid` and whose body is read and non-empty: if
`GetPasswordByLogin uid body` returns `(ct, rid)`, `GetLoginAndPasswordKey`
returns `k` for the decimal texts of `uid` and `rid`, and `DecryptAESGCM ct k`
returns `p`, then `PasswordGet` answers 200 with body exactly `p`, and its
calls are exactly those three, in that order, with those arguments.  The same
holds for `TextDataGet` with `GetText` and `GetTextDataKey`.  So each kind
asks the key keeper through its own method, with the context user and the
record id of its own fetch. -/
theorem read_secret_pipeline (h : handlerHTTP) (s : World) (hw : s.w = ResponseWriter.fresh) :
    (∀ (r : Request) (uid rid : Int) (ct k p : Bytes),
      r.Ctx.Value UserIDContextKey = some (AnyValue.int uid) → 0 < uid →
      r.BodyErr = none → r.Body ≠ "" →
      h.Storage.GetPasswordByLogin uid r.Body = (ct, rid, none) →
      h.KeyKeeper.GetLoginAndPasswordKey (Itoa uid) (Itoa rid) = (k, none) →
      h.Encryptor.DecryptAESGCM ct k = (p, none) →
        (PasswordGet h r s).w.Status = some StatusOK ∧
        (PasswordGet h r s).w.Body = p ∧
        (PasswordGet h r s).trace = s.trace ++
          [Event.getPasswordByLogin uid r.Body,
           Event.getLoginAndPasswordKey (Itoa uid) (Itoa rid),
           Event.decryptAESGCM ct k]) ∧
    (∀ (r : Request) (uid rid : Int) (ct k p : Bytes),
      r.Ctx.Value UserIDContextKey = some (AnyValue.int uid) → 0 < uid →
      r.BodyErr = none → r.Body ≠ "" →
      h.Storage.GetText uid r.Body = (ct, rid, none) →
      h.KeyKeeper.GetTextDataKey (Itoa uid) (Itoa rid) = (k, none) →
      h.Encryptor.DecryptAESGCM ct k = (p, none) →
        (TextDataGet h r s).w.Status = some StatusOK ∧
        (TextDataGet h r s).w.Body = p ∧
        (TextDataGet h r s).trace = s.trace ++
          [Event.getText uid r.Body,
           Event.getTextDataKey (Itoa uid) (Itoa rid),
           Event.decryptAESGCM ct k]) := by
  constructor
  · intro r uid rid ct k p hctx hpos hb hne hg hk hd
    have h0 : len r.Body ≠ 0 := fun hc => hne ((len_eq_zero_iff _).1 hc)
    have h1 : ¬ uid ≤ 0 := by omega
    have hr : PasswordGet h r s =
        { w := (s.w.WriteHeader StatusOK).Write p,
          trace := s.trace ++ [Event.getPasswordByLogin uid r.Body,
            Event.getLoginAndPasswordKey (Itoa uid) (Itoa rid), Event.decryptAESGCM ct k] } := by
      simp [PasswordGet, hctx, assertInt, h1, hb, h0, hg, hk, hd, World.record]
    rw [hr, hw]
    exact ⟨(fresh_ok_write p).1, (fresh_ok_write p).2, rfl⟩
  · intro r uid rid ct k p hctx hpos hb hne hg hk hd
    have h0 : len r.Body ≠ 0 := fun hc => hne ((len_eq_zero_iff _).1 hc)
    have h1 : ¬ uid ≤ 0 := by omega
    have hr : TextDataGet h r s =
        { w := (s.w.WriteHeader StatusOK).Write p,
          trace := s.trace ++ [Event.getText uid r.Body,
            Event.getTextDataKey (Itoa uid) (Itoa rid), Event.decryptAESGCM ct k] } := by
      simp [TextDataGet, hctx, assertInt, h1, hb, h0, hg, hk, hd, World.record]
    rw [hr, hw]
    exact ⟨(fresh_ok_write p).1, (fresh_ok_write p).2, rfl⟩

/-- Witness for C5: user 1 reads the password stored under `github` (record 7)
and the text stored under `note` (record 3). -/
theorem read_secret_pipeline_witness :
    ((PasswordGet (handlerOn aliceDB) (readRequest (AnyValue.int 1) "github") World.fresh).w.Status
        = some StatusOK ∧
      (PasswordGet (handlerOn aliceDB) (readRequest (AnyValue.int 1) "github") World.fresh).w.Body
        = "hunter2" ∧
      (PasswordGet (handlerOn aliceDB) (readRequest (AnyValue.int 1) "github") World.fresh).trace
        = [Event.getPasswordByLogin 1 "github", Event.getLoginAndPasswordKey "1" "7",
           Event.decryptAESGCM "sealed-hunter2" "lp/1/7"]) ∧
    ((TextDataGet (handlerOn aliceDB) (readRequest (AnyValue.int 1) "note") World.fresh).w.Status
        = some StatusOK ∧
      (TextDataGet (handlerOn aliceDB) (readRequest (AnyValue.int 1) "note") World.fresh).w.Body
        = "buy milk" ∧
      (TextDataGet (handlerOn aliceDB) (readRequest (AnyValue.int 1) "note") World.fresh).trace
        = [Event.getText 1 "note", Event.getTextDataKey "1" "3",
           Event.decryptAESGCM "sealed-note" "text/1/3"]) :=
  ⟨(read_secret_pipeline (handlerOn aliceDB) World.fresh rfl).1
      (readRequest (AnyValue.int 1) "github") 1 7 "sealed-hunter2" "lp/1/7" "hunter2"
      (by decide) (by decide) rfl (by decide) (by decide) (by decide) (by decide),
   (read_secret_pipeline (handlerOn aliceDB) World.fresh rfl).2
      (readRequest (AnyValue.int 1) "note") 1 3 "sealed-note" "text/1/3" "buy milk"
      (by decide) (by decide) rfl (by decide) (by decide) (by decide) (by decide)⟩

/-- Claim C9.  In `PasswordGet` and in `TextDataGet`, for every ciphertext
`ct` fetched and key `k` obtained for the request, if `DecryptAESGCM ct k`
returns an error, together with whatever slice `garbage`, the handler answers
500 Internal Server Error and writes no body byte: the status is not 200 and
`garbage` is not written. -/
theorem decrypt_failure_surfaced (h : handlerHTTP) (s : World) (hs : s.w.Status = none) :
    (∀ (r : Request) (uid rid : Int) (ct k garbage : Bytes) (e : GoError),
      r.Ctx.Value UserIDContextKey = some (AnyValue.int uid) → 0 < uid →
      r.BodyErr = none → r.Body ≠ "" →
      h.Storage.GetPasswordByLogin uid r.Body = (ct, rid, none) →
      h.KeyKeeper.GetLoginAndPasswordKey (Itoa uid) (Itoa rid) = (k, none) →
      h.Encryptor.DecryptAESGCM ct k = (garbage, some e) →
        (PasswordGet h r s).w.Status = some StatusInternalServerError ∧
        (PasswordGet h r s).w.wireStatus ≠ StatusOK ∧
        (PasswordGet h r s).w.Body = s.w.Body) ∧
    (∀ (r : Request) (uid rid : Int) (ct k garbage : Bytes) (e : GoError),
      r.Ctx.Value UserIDContextKey = some (AnyValue.int uid) → 0 < uid →
      r.BodyErr = none → r.Body ≠ "" →
      h.Storage.GetText uid r.Body = (ct, rid, none) →
      h.KeyKeeper.GetTextDataKey (Itoa uid) (Itoa rid) = (k, none) →
      h.Encryptor.DecryptAESGCM ct k = (garbage, some e) →
        (TextDataGet h r s).w.Status = some StatusInternalServerError ∧
        (TextDataGet h r s).w.wireStatus ≠ StatusOK ∧
        (TextDataGet h r s).w.Body = s.w.Body) := by
  have hst : (s.w.WriteHeader StatusInternalServerError).wireStatus ≠ StatusOK := by
    simp [ResponseWriter.wireStatus, writeHeader_status _ _ hs, StatusInternalServerError,
      StatusOK]
  constructor
  · intro r uid rid ct k garbage e hctx hpos hb hne hg hk hd
    have h0 : len r.Body ≠ 0 := fun hc => hne ((len_eq_zero_iff _).1 hc)
    have h1 : ¬ uid ≤ 0 := by omega
    have hr : PasswordGet h r s =
        { w := s.w.WriteHeader StatusInternalServerError,
          trace := s.trace ++ [Event.getPasswordByLogin uid r.Body,
            Event.getLoginAndPasswordKey (Itoa uid) (Itoa rid), Event.decryptAESGCM ct k] } := by
      simp [PasswordGet, hctx, assertInt, h1, hb, h0, hg, hk, hd, World.record]
    rw [hr]
    exact ⟨writeHeader_status _ _ hs, hst, writeHeader_body _ _⟩
  · intro r uid rid ct k garbage e hctx hpos hb hne hg hk hd
    have h0 : len r.Body ≠ 0 := fun hc => hne ((len_eq_zero_iff _).1 hc)
    have h1 : ¬ uid ≤ 0 := by omega
    have hr : TextDataGet h r s =
        { w := s.w.WriteHeader StatusInternalServerError,
          trace := s.trace ++ [Event.getText uid r.Body,
            Event.getTextDataKey (Itoa uid) (Itoa rid), Event.decryptAESGCM ct k] } := by
      simp [TextDataGet, hctx, assertInt, h1, hb, h0, hg, hk, hd, World.record]
    rw [hr]
    exact ⟨writeHeader_status _ _ hs, hst, writeHeader_body _ _⟩

/-- Witness for C9: the stored ciphertexts were tampered with, and the
encryptor fails while handing back the slice `garbage`. -/
theorem decrypt_failure_surfaced_witness :
    sampleEncryptor.DecryptAESGCM "sealed-hunter2-flipped" "lp/1/7"
      = ("garbage", some (GoError.other "cipher: message authentication failed")) ∧
    ((PasswordGet (handlerOn tamperedDB) (readRequest (AnyValue.int 1) "github")
        World.fresh).w.Status = some StatusInternalServerError ∧
      (PasswordGet (handlerOn tamperedDB) (readRequest (AnyValue.int 1) "github")
        World.fresh).w.wireStatus ≠ StatusOK ∧
      (PasswordGet (handlerOn tamperedDB) (readRequest (AnyValue.int 1) "github")
        World.fresh).w.Body = "") ∧
    ((TextDataGet (handlerOn tamperedDB) (readRequest (AnyValue.int 1) "note")
        World.fresh).w.Status = some StatusInternalServerError ∧
      (TextDataGet (handlerOn tamperedDB) (readRequest (AnyValue.int 1) "note")
        World.fresh).w.wireStatus ≠ StatusOK ∧
      (TextDataGet (handlerOn tamperedDB) (readRequest (AnyValue.int 1) "note")
        World.fresh).w.Body = "") :=
  ⟨by decide,
   (decrypt_failure_surfaced (handlerOn tamperedDB) World.fresh rfl).1
      (readRequest (AnyValue.int 1) "github") 1 7 "sealed-hunter2-flipped" "lp/1/7" "garbage"
      (GoError.other "cipher: message authentication failed")
      (by decide) (by decide) rfl (by decide) (by decide) (by decide) (by decide),
   (decrypt_failure_surfaced (handlerOn tamperedDB) World.fresh rfl).2
      (readRequest (AnyValue.int 1) "note") 1 3 "sealed-note-flipped" "text/1/3" "garbage"
      (GoError.other "cipher: message authentication failed")
      (by decide) (by decide) rfl (by decide) (by decide) (by decide) (by decide)⟩

/-- Claim C10.  When the request context holds no value under
`UserIDContextKey`, or a value that is not an int, or an int that is not
positive, `PasswordGet` and `TextDataGet` answer 401 Unauthorized, write no
body, and leave the trace unchanged: no call to the storage, the key keeper or
the encryptor. -/
theorem read_requires_authenticated_context (h : handlerHTTP) (r : Request) (s : World)
    (hs : s.w.Status = none)
    (hctx : ∀ n : Int, r.Ctx.Value UserIDContextKey = some (AnyValue.int n) → n ≤ 0) :
    ((PasswordGet h r s).w.Status = some StatusUnauthorized ∧
      (PasswordGet h r s).w.Body = s.w.Body ∧
      (PasswordGet h r s).trace = s.trace) ∧
    ((TextDataGet h r s).w.Status = some StatusUnauthorized ∧
      (TextDataGet h r s).w.Body = s.w.Body ∧
      (TextDataGet h r s).trace = s.trace) := by
  have hg : (!(assertInt (r.Ctx.Value UserIDContextKey)).2
      || decide ((assertInt (r.Ctx.Value UserIDContextKey)).1 ≤ 0)) = true := by
    rcases hv : r.Ctx.Value UserIDContextKey with _ | v
    · simp [assertInt]
    · cases v with
      | int n => simpa [assertInt] using hctx n hv
      | _ => simp [assertInt]
  have h1 : PasswordGet h r s = { s with w := s.w.WriteHeader StatusUnauthorized } := by
    simp only [PasswordGet]
    rw [if_pos hg]
  have h2 : TextDataGet h r s = { s with w := s.w.WriteHeader StatusUnauthorized } := by
    simp only [TextDataGet]
    rw [if_pos hg]
  rw [h1, h2]
  exact ⟨⟨writeHeader_status _ _ hs, writeHeader_body _ _, rfl⟩,
    ⟨writeHeader_status _ _ hs, writeHeader_body _ _, rfl⟩⟩

/-- Witness for C10: the context carries the int 0, the id `AuthUser` returns
on failure, and the lookup key is one that user 1 holds. -/
theorem read_requires_authenticated_context_witness :
    (PasswordGet (handlerOn aliceDB) (readRequest (AnyValue.int 0) "github") World.fresh).w.Status
      = some StatusUnauthorized ∧
    (PasswordGet (handlerOn aliceDB) (readRequest (AnyValue.int 0) "github") World.fresh).trace
      = [] ∧
    (TextDataGet (handlerOn aliceDB) (readRequest (AnyValue.int 0) "github") World.fresh).w.Body
      = "" :=
  ⟨(read_requires_authenticated_context (handlerOn aliceDB)
      (readRequest (AnyValue.int 0) "github") World.fresh rfl
      (fun n hn => by
        have h0 : some (AnyValue.int 0) = some (AnyValue.int n) := hn
        cases h0
        decide)).1.1,
   (read_requires_authenticated_context (handlerOn aliceDB)
      (readRequest (AnyValue.int 0) "github") World.fresh rfl
      (fun n hn => by
        have h0 : some (AnyValue.int 0) = some (AnyValue.int n) := hn
        cases h0
        decide)).1.2.2,
   (read_requires_authenticated_context (handlerOn aliceDB)
      (readRequest (AnyValue.int 0) "github") World.fresh rfl
      (fun n hn => by
        have h0 : some (AnyValue.int 0) = some (AnyValue.int n) := hn
        cases h0
        decide)).2.2.1⟩

/-! ## Storage -/

/-- Claim C6, evaluated on the code.  In the scenario database user 1 holds no
password record under `unknown` and no card ending in 9999.  `GetText`, like
`AuthUser`, turns the missing row into `ErrNotExists`; `GetPasswordByLogin` and
`GetBankCard` return `sql.ErrNoRows` as it comes from the driver, which is not
`ErrNotExists`. -/
theorem GetPasswordByLogin_GetBankCard_return_raw_ErrNoRows :
    (∀ row ∈ aliceDB.logins_and_passwords, ¬ (row.owner_id = 1 ∧ row.login = "unknown")) ∧
    (∀ row ∈ aliceDB.bank_cards, ¬ (row.owner_id = 1 ∧ row.last_four_digits = 9999)) ∧
    (∀ row ∈ aliceDB.texts, ¬ (row.owner_id = 1 ∧ row.text_name = "unknown")) ∧
    aliceDB.GetPasswordByLogin 1 "unknown" = ("", 0, some GoError.sqlErrNoRows) ∧
    aliceDB.GetBankCard 1 9999 = ("", 0, some GoError.sqlErrNoRows) ∧
    errorsIs (some GoError.sqlErrNoRows) GoError.errNotExists = false ∧
    aliceDB.GetText 1 "unknown" = ("", 0, some GoError.errNotExists) := by
  decide

/-- Claim C7.  Tables are lists of rows; `A` and `B` are distinct owners.  For
each of `GetPasswordByLogin`, `GetText` and `GetBankCard` issued with owner
`B`: a fetch that succeeds returns the data and the id of a row of the table
whose `owner_id` is `B`, hence not `A`, and whose lookup key is the requested
one; where `id` is the primary key (no two rows share an id) the id returned is
not the id of any row owned by `A`; and if every row under the requested key
is owned by `A`, the fetch fails. -/
theorem fetch_owner_isolation (p : PostgresDB) (A B : Int) (hAB : A ≠ B)
    (login textName : String) (digits : Int) :
    ((∀ data id, p.GetPasswordByLogin B login = (data, id, none) →
        (∃ row ∈ p.logins_and_passwords, row.owner_id = B ∧ row.owner_id ≠ A ∧
          row.login = login ∧ row.password = data ∧ row.id = id) ∧
        ((p.logins_and_passwords.map (fun row => row.id)).Nodup →
          ∀ rowA ∈ p.logins_and_passwords, rowA.owner_id = A → rowA.id ≠ id)) ∧
      ((∀ row ∈ p.logins_and_passwords, row.login = login → row.owner_id = A) →
        (p.GetPasswordByLogin B login).2.2 ≠ none)) ∧
    ((∀ data id, p.GetText B textName = (data, id, none) →
        (∃ row ∈ p.texts, row.owner_id = B ∧ row.owner_id ≠ A ∧
          row.text_name = textName ∧ row.text_data = data ∧ row.id = id) ∧
        ((p.texts.map (fun row => row.id)).Nodup →
          ∀ rowA ∈ p.texts, rowA.owner_id = A → rowA.id ≠ id)) ∧
      ((∀ row ∈ p.texts, row.text_name = textName → row.owner_id = A) →
        (p.GetText B textName).2.2 ≠ none)) ∧
    ((∀ data id, p.GetBankCard B digits = (data, id, none) →
        (∃ row ∈ p.bank_cards, row.owner_id = B ∧ row.owner_id ≠ A ∧
          row.last_four_digits = digits ∧ row.card_data = data ∧ row.id = id) ∧
        ((p.bank_cards.map (fun row => row.id)).Nodup →
          ∀ rowA ∈ p.bank_cards, rowA.owner_id = A → rowA.id ≠ id)) ∧
      ((∀ row ∈ p.bank_cards, row.last_four_digits = digits → row.owner_id = A) →
        (p.GetBankCard B digits).2.2 ≠ none)) := by
  refine ⟨⟨?_, ?_⟩, ⟨?_, ?_⟩, ⟨?_, ?_⟩⟩
  · intro data id h
    obtain ⟨row, hm, ho, hk, hd, hi⟩ := getPasswordByLogin_some p B login data id h
    refine ⟨⟨row, hm, ho, fun hc => hAB (hc.symm.trans ho), hk, hd, hi⟩, ?_⟩
    intro hpk rowA hmA hoA hc
    have := id_unique _ _ hpk rowA row hmA hm (hc.trans hi.symm)
    subst this
    exact hAB (hoA.symm.trans ho)
  · intro h
    rw [getPasswordByLogin_none p B login (fun row hm hk hc => hAB ((h row hm hk).symm.trans hc))]
    simp
  · intro data id h
    obtain ⟨row, hm, ho, hk, hd, hi⟩ := getText_some p B textName data id h
    refine ⟨⟨row, hm, ho, fun hc => hAB (hc.symm.trans ho), hk, hd, hi⟩, ?_⟩
    intro hpk rowA hmA hoA hc
    have := id_unique _ _ hpk rowA row hmA hm (hc.trans hi.symm)
    subst this
    exact hAB (hoA.symm.trans ho)
  · intro h
    rw [getText_none p B textName (fun row hm hk hc => hAB ((h row hm hk).symm.trans hc))]
    simp
  · intro data id h
    obtain ⟨row, hm, ho, hk, hd, hi⟩ := getBankCard_some p B digits data id h
    refine ⟨⟨row, hm, ho, fun hc => hAB (hc.symm.trans ho), hk, hd, hi⟩, ?_⟩
    intro hpk rowA hmA hoA hc
    have := id_unique _ _ hpk rowA row hmA hm (hc.trans hi.symm)
    subst this
    exact hAB (hoA.symm.trans ho)
  · intro h
    rw [getBankCard_none p B digits (fun row hm hk hc => hAB ((h row hm hk).symm.trans hc))]
    simp

/-- Witness for C7: with both users holding a password under `github`, the
fetch as user 2 succeeds with record 8, which is not the id of a row of user 1;
with user 1 alone holding `github`, `note` and the card 1234, the three fetches
as user 2 fail. -/
theorem fetch_owner_isolation_witness :
    twoOwnersDB.GetPasswordByLogin 2 "github" = ("sealed-password-of-2", 8, none) ∧
    (∀ rowA ∈ twoOwnersDB.logins_and_passwords, rowA.owner_id = 1 → rowA.id ≠ 8) ∧
    (aliceDB.GetPasswordByLogin 2 "github").2.2 ≠ none ∧
    (aliceDB.GetText 2 "note").2.2 ≠ none ∧
    (aliceDB.GetBankCard 2 1234).2.2 ≠ none :=
  ⟨by decide,
   ((fetch_owner_isolation twoOwnersDB 1 2 (by decide) "github" "note" 1234).1.1
      "sealed-password-of-2" 8 (by decide)).2 (by decide),
   (fetch_owner_isolation aliceDB 1 2 (by decide) "github" "note" 1234).1.2 (by decide),
   (fetch_owner_isolation aliceDB 1 2 (by decide) "github" "note" 1234).2.1.2 (by decide),
   (fetch_owner_isolation aliceDB 1 2 (by decide) "github" "note" 1234).2.2.2 (by decide)⟩

/-- Claim C8, evaluated on the code.  `LogIn` builds the user
`aliceAsBuiltByLogIn`, whose Password is the submitted `s3cr3t` and whose
PasswordHash is the output of `HashPassword`, and hands it to `Auth`.
`CreateUser` on that user writes the raw Password into `users.password`, not
the PasswordHash; `AuthUser` compares the column with the raw Password, so it
accepts the table holding the raw password and rejects the table holding the
hash. -/
theorem CreateUser_AuthUser_bind_raw_password :
    (LogIn (handlerOn aliceDB) (loginRequest loginBodyGood) World.fresh).trace
      = [Event.hashPassword "s3cr3t", Event.auth aliceAsBuiltByLogIn,
         Event.buildNewJWTString 1] ∧
    aliceAsBuiltByLogIn.Password = "s3cr3t" ∧
    aliceAsBuiltByLogIn.PasswordHash = "hash-of-s3cr3t" ∧
    (emptyDB.CreateUser aliceAsBuiltByLogIn).1.users
      = [{ id := 1, login := "alice", password := "s3cr3t" }] ∧
    (emptyDB.CreateUser aliceAsBuiltByLogIn).1.users.map (fun row => row.password)
      ≠ [aliceAsBuiltByLogIn.PasswordHash] ∧
    aliceDB.AuthUser aliceAsBuiltByLogIn = (1, none) ∧
    hashColumnDB.AuthUser aliceAsBuiltByLogIn = (0, some GoError.errNotExists) := by
  decide

end GophKeeper
